import Mathlib

/-!
Shallow embedding of the grade-prediction logic of `app.py` (a Flask
grade-tracking application).  Python floats are modelled as rationals (`ℚ`),
Python `None` / missing dictionary fields as `Option`, and `round(x, 2)` as
rounding to the nearest multiple of `1/100` with ties to even (Python's
documented rounding mode).  Each definition mirrors one function or route
handler of the source file.
-/

namespace GradeApp

/-- Constant `MIN_GRADE = 6` (app.py line 16). -/
def MIN_GRADE : ℚ := 6

/-- Constant `MAX_GRADE = 10` (app.py line 17). -/
def MAX_GRADE : ℚ := 10

/-- Constant `TARGET_AVG = 8.0` (app.py line 18). -/
def TARGET_AVG : ℚ := 8

/-- Round a rational to the nearest integer, ties to even (Python `round`). -/
def roundHalfEven (q : ℚ) : ℤ :=
  if q - ⌊q⌋ < 1/2 then ⌊q⌋
  else if 1/2 < q - ⌊q⌋ then ⌊q⌋ + 1
  else if ⌊q⌋ % 2 = 0 then ⌊q⌋ else ⌊q⌋ + 1

/-- Python `round(q, 2)`: round to the nearest multiple of `1/100`. -/
def round2 (q : ℚ) : ℚ := (roundHalfEven (q * 100) : ℚ) / 100

/-- Sample mean `x_mean = sum(xs)/n` (app.py line 39). -/
def x_mean (points : List (ℚ × ℚ)) : ℚ :=
  (points.map Prod.fst).sum / points.length

/-- Sample mean `y_mean = sum(ys)/n` (app.py line 39). -/
def y_mean (points : List (ℚ × ℚ)) : ℚ :=
  (points.map Prod.snd).sum / points.length

/-- Fitted slope `slope = num/den if den != 0 else 0` where
`num = sum((x - x_mean)*(y - y_mean))` and `den = sum((x - x_mean)**2)`
(app.py lines 40-42). -/
def slope (points : List (ℚ × ℚ)) : ℚ :=
  let num := (points.map (fun p => (p.1 - x_mean points) * (p.2 - y_mean points))).sum
  let den := (points.map (fun p => (p.1 - x_mean points) ^ 2)).sum
  if den ≠ 0 then num / den else 0

/-- Fitted intercept `intercept = y_mean - slope*x_mean` (app.py line 43). -/
def intercept (points : List (ℚ × ℚ)) : ℚ :=
  y_mean points - slope points * x_mean points

/-- Consecutive gaps `deltas = [xs[i+1]-xs[i] for i in range(n-1)]` (app.py line 46). -/
def deltas (xs : List ℚ) : List ℚ :=
  List.zipWith (fun a b => b - a) xs xs.tail

/-- Mean consecutive gap `sum(deltas)/len(deltas)` (app.py line 47). -/
def average_gap (xs : List ℚ) : ℚ :=
  (deltas xs).sum / (deltas xs).length

/-- Extrapolation point `next_x = xs[-1] + sum(deltas)/len(deltas)` (app.py line 47). -/
def next_x (points : List (ℚ × ℚ)) : ℚ :=
  let xs := points.map Prod.fst
  xs.getLastD 0 + average_gap xs

/-- Raw (unclipped) extrapolation `pred = slope*next_x + intercept` (app.py line 48). -/
def raw_pred (points : List (ℚ × ℚ)) : ℚ :=
  slope points * next_x points + intercept points

/-- Clipping step `max(MIN_GRADE, min(MAX_GRADE, pred))` (app.py line 49). -/
def clip (q : ℚ) : ℚ := max MIN_GRADE (min MAX_GRADE q)

/-- Function `linear_regression_predict(points)` (app.py lines 27-49): `None` on an
empty list, the lone grade unchanged on a singleton, otherwise the clipped,
rounded least-squares extrapolation. -/
def linear_regression_predict : List (ℚ × ℚ) → Option ℚ
  | [] => none
  | [p] => some p.2
  | p₀ :: p₁ :: rest => some (round2 (clip (raw_pred (p₀ :: p₁ :: rest))))

/-- One document of the `subjects` collection, as read by the predictor:
`grade` is absent when the dictionary lacks the field, `date_added` holds the
timestamp of the `datetime` value when one is present. -/
structure Subject where
  subject : String
  grade : Option ℚ
  date_added : Option ℚ
  deriving DecidableEq

/-- The loop body of `prepare_points_from_subjects` (app.py lines 54-58):
`x = dt.timestamp() if hasattr(dt, "timestamp") else idx` and
`grade = float(s.get("grade", 0))`, with `idx` threaded through. -/
def preparePointsAux (idx : ℕ) : List Subject → List (ℚ × ℚ)
  | [] => []
  | s :: rest =>
    (match s.date_added with
      | some t => t
      | none => (idx : ℚ), s.grade.getD 0) :: preparePointsAux (idx + 1) rest

/-- Function `prepare_points_from_subjects(subjects)` (app.py lines 51-59). -/
def prepare_points_from_subjects (subjects : List Subject) : List (ℚ × ℚ) :=
  preparePointsAux 0 subjects

/-- Grade list `grades = [float(s.get("grade",0)) for s in subjects]` (app.py line 70). -/
def gradesOf (subjects : List Subject) : List ℚ :=
  subjects.map (fun s => s.grade.getD 0)

/-- The JSON body produced by the `/predict/<student_id>` route. -/
structure PredictionResult where
  prediction : Option ℚ
  baseline_avg : Option ℚ
  explanation : String
  deriving DecidableEq

/-- The `/predict/<student_id>` route handler (app.py lines 62-78), applied to
the student's subject list already sorted by `date_added`. -/
def predict (subjects : List Subject) : PredictionResult :=
  if subjects.isEmpty then
    ⟨none, none, "No grades available."⟩
  else
    let points := prepare_points_from_subjects subjects
    let pred := linear_regression_predict points
    let grades := gradesOf subjects
    let baseline_avg : Option ℚ :=
      if grades.isEmpty then none else some (round2 (grades.sum / grades.length))
    match pred with
    | some p => ⟨some p, baseline_avg, "Prediction based on linear trend of historical grades."⟩
    | none => ⟨baseline_avg, baseline_avg, "Not enough history; using baseline average."⟩

/-- The required-next-grade computation of `student_page` (app.py lines
242-252), with the module constant `TARGET_AVG` made an explicit argument. -/
def required_grade (target : ℚ) (grades : List ℚ) : Option ℚ :=
  if grades.isEmpty then some target
  else
    let required := target * (grades.length + 1) - grades.sum
    if MAX_GRADE < required then none
    else if required < MIN_GRADE then some MIN_GRADE
    else some (round2 required)

/-- Result of a successful Python `float(...)` conversion as the write
handlers see it: a numeric value (modelled as ℚ) or the float `nan`, which
`float("nan")` produces without raising. -/
inductive PyFloat where
  | num (q : ℚ)
  | nan
  deriving DecidableEq

/-- Python `<` on floats: an ordinary comparison on numeric values, and
`False` whenever either side is `nan`. -/
def PyFloat.lt : PyFloat → PyFloat → Bool
  | .num a, .num b => decide (a < b)
  | _, _ => false

/-- One document of the `subjects` collection as the write handlers store it:
the grade field holds whatever float the conversion produced, `nan`
included. -/
structure SubjectDoc where
  subject : String
  grade : PyFloat
  date_added : Option ℚ
  deriving DecidableEq

/-- Outcome of a POST handler that may write a subject document: either an
error response with its HTTP status code, or the document written. -/
inductive WriteOutcome where
  | badRequest (code : ℕ) (msg : String)
  | written (doc : SubjectDoc)
  deriving DecidableEq

/-- The POST branch of `student_page` (app.py lines 215-228): `grade_input`
is the result of `float(request.form.get("grade",""))`, `none` when the
conversion raises; the range test `grade < MIN_GRADE or grade > MAX_GRADE`
uses Python float comparison, which is `False` on `nan`. -/
def student_page_post (subj_name_raw : String) (grade_input : Option PyFloat)
    (now : ℚ) : WriteOutcome :=
  let subj_name := subj_name_raw.trim
  match grade_input with
  | none => .badRequest 400 "Error: Invalid grade"
  | some grade =>
    if subj_name = "" ∨ grade.lt (.num MIN_GRADE) ∨ (PyFloat.num MAX_GRADE).lt grade then
      .badRequest 400 "Error: Grade must be 6-10"
    else
      .written { subject := subj_name, grade := grade, date_added := some now }

/-- The `edit_subject` handler (app.py lines 267-280): updates the `subject`
and `grade` fields of the stored document, leaving `date_added` unchanged;
the range test is the same Python float comparison as in `student_page`. -/
def edit_subject (old : SubjectDoc) (new_name_raw : String)
    (grade_input : Option PyFloat) : WriteOutcome :=
  let new_name := new_name_raw.trim
  match grade_input with
  | none => .badRequest 400 "Error: Invalid grade"
  | some new_grade =>
    if new_name = "" ∨ new_grade.lt (.num MIN_GRADE) ∨ (PyFloat.num MAX_GRADE).lt new_grade then
      .badRequest 400 "Error: Grade must be 6-10"
    else
      .written { old with subject := new_name, grade := new_grade }

/-- Spec rendering for claim C8: the x-values actually fed to the regression
for one history. -/
def xValues (subjects : List Subject) : List ℚ :=
  (prepare_points_from_subjects subjects).map Prod.fst

/-- Spec rendering for claim C8, first arm: every x-value is its subject's
numeric timestamp. -/
def allTimestampX (subjects : List Subject) : Prop :=
  subjects.map Subject.date_added = (xValues subjects).map some

/-- Spec rendering for claim C8, second arm: every x-value is its subject's
ordinal index. -/
def allIndexX (subjects : List Subject) : Prop :=
  xValues subjects = (List.range subjects.length).map (fun i : ℕ => (i : ℚ))

/-! ### Helper lemmas -/

theorem floor_le_self_int {q : ℚ} {M : ℤ} (h : q ≤ (M : ℚ)) : ⌊q⌋ ≤ M := by
  have := Int.floor_le_floor h
  rwa [Int.floor_intCast] at this

theorem roundHalfEven_ge_floor (q : ℚ) : ⌊q⌋ ≤ roundHalfEven q := by
  unfold roundHalfEven
  split_ifs <;> omega

theorem roundHalfEven_le_floor_add_one (q : ℚ) : roundHalfEven q ≤ ⌊q⌋ + 1 := by
  unfold roundHalfEven
  split_ifs <;> omega

theorem roundHalfEven_intCast (z : ℤ) : roundHalfEven (z : ℚ) = z := by
  unfold roundHalfEven
  rw [Int.floor_intCast]
  norm_num

theorem le_roundHalfEven {m : ℤ} {q : ℚ} (h : (m : ℚ) ≤ q) : m ≤ roundHalfEven q :=
  le_trans (Int.le_floor.mpr h) (roundHalfEven_ge_floor q)

theorem roundHalfEven_le {q : ℚ} {M : ℤ} (h : q ≤ (M : ℚ)) : roundHalfEven q ≤ M := by
  rcases lt_or_eq_of_le (floor_le_self_int h) with hlt | heq
  · exact le_trans (roundHalfEven_le_floor_add_one q) (by omega)
  · have hq : q = (M : ℚ) := by
      refine le_antisymm h ?_
      calc (M : ℚ) = (⌊q⌋ : ℚ) := by exact_mod_cast heq.symm
        _ ≤ q := Int.floor_le q
    rw [hq, roundHalfEven_intCast]

theorem le_round2 {m : ℤ} {q : ℚ} (h : (m : ℚ) ≤ q) : (m : ℚ) ≤ round2 q := by
  unfold round2
  rw [le_div_iff₀ (by norm_num : (0:ℚ) < 100)]
  have : m * 100 ≤ roundHalfEven (q * 100) := by
    refine le_roundHalfEven ?_
    push_cast
    nlinarith
  calc (m : ℚ) * 100 = ((m * 100 : ℤ) : ℚ) := by push_cast; ring
    _ ≤ (roundHalfEven (q * 100) : ℚ) := by exact_mod_cast this

theorem round2_le {q : ℚ} {M : ℤ} (h : q ≤ (M : ℚ)) : round2 q ≤ (M : ℚ) := by
  unfold round2
  rw [div_le_iff₀ (by norm_num : (0:ℚ) < 100)]
  have : roundHalfEven (q * 100) ≤ M * 100 := by
    refine roundHalfEven_le ?_
    push_cast
    nlinarith
  calc (roundHalfEven (q * 100) : ℚ) ≤ ((M * 100 : ℤ) : ℚ) := by exact_mod_cast this
    _ = (M : ℚ) * 100 := by push_cast; ring

theorem round2_intCast (z : ℤ) : round2 (z : ℚ) = (z : ℚ) := by
  unfold round2
  rw [show ((z : ℚ) * 100) = ((z * 100 : ℤ) : ℚ) by push_cast; ring, roundHalfEven_intCast]
  push_cast
  ring

theorem round2_ten : round2 MAX_GRADE = MAX_GRADE := by
  have := round2_intCast 10
  norm_num at this
  simpa [MAX_GRADE] using this

theorem clip_bounds (q : ℚ) : MIN_GRADE ≤ clip q ∧ clip q ≤ MAX_GRADE := by
  constructor
  · exact le_max_left _ _
  · exact max_le (by norm_num [MIN_GRADE, MAX_GRADE]) (min_le_left _ _)

theorem round2_clip_bounds (q : ℚ) :
    MIN_GRADE ≤ round2 (clip q) ∧ round2 (clip q) ≤ MAX_GRADE := by
  obtain ⟨h1, h2⟩ := clip_bounds q
  constructor
  · have := le_round2 (m := 6) (q := clip q) (by exact_mod_cast h1)
    simpa [MIN_GRADE] using this
  · have := round2_le (M := 10) (q := clip q) (by exact_mod_cast h2)
    simpa [MAX_GRADE] using this

theorem clip_of_gt_max {q : ℚ} (h : MAX_GRADE < q) : clip q = MAX_GRADE := by
  unfold clip
  rw [min_eq_left h.le, max_eq_right (by norm_num [MIN_GRADE, MAX_GRADE])]

theorem sum_map_const {α : Type} (l : List α) (c : ℚ) :
    (l.map (fun _ => c)).sum = l.length * c := by
  induction l with
  | nil => simp
  | cons a l ih =>
    simp [ih]
    ring

theorem x_mean_const {points : List (ℚ × ℚ)} {c : ℚ} (hne : points ≠ [])
    (h : ∀ p ∈ points, p.1 = c) : x_mean points = c := by
  unfold x_mean
  rw [List.map_congr_left h, sum_map_const]
  have hn : (points.length : ℚ) ≠ 0 := by
    exact_mod_cast Nat.pos_iff_ne_zero.mp (List.length_pos.mpr hne)
  field_simp

theorem y_mean_const {points : List (ℚ × ℚ)} {g : ℚ} (hne : points ≠ [])
    (h : ∀ p ∈ points, p.2 = g) : y_mean points = g := by
  unfold y_mean
  rw [List.map_congr_left h, sum_map_const]
  have hn : (points.length : ℚ) ≠ 0 := by
    exact_mod_cast Nat.pos_iff_ne_zero.mp (List.length_pos.mpr hne)
  field_simp

theorem slope_of_const_x {points : List (ℚ × ℚ)} {c : ℚ}
    (h : ∀ p ∈ points, p.1 = c) : slope points = 0 := by
  rcases points with _ | ⟨p, rest⟩
  · simp [slope]
  · set points := p :: rest with hpts
    have hne : points ≠ [] := by simp [hpts]
    have hden : (points.map (fun p => (p.1 - x_mean points) ^ 2)).sum = 0 := by
      have hmap : points.map (fun p => (p.1 - x_mean points) ^ 2)
          = points.map (fun _ => (0 : ℚ)) := by
        refine List.map_congr_left ?_
        intro q hq
        rw [h q hq, x_mean_const hne h]
        ring
      rw [hmap, sum_map_const]
      ring
    unfold slope
    simp [hden]

theorem slope_of_const_y {points : List (ℚ × ℚ)} {g : ℚ}
    (h : ∀ p ∈ points, p.2 = g) : slope points = 0 := by
  rcases points with _ | ⟨p, rest⟩
  · simp [slope]
  · set points := p :: rest with hpts
    have hne : points ≠ [] := by simp [hpts]
    have hnum : (points.map (fun p => (p.1 - x_mean points) * (p.2 - y_mean points))).sum = 0 := by
      have hmap : points.map (fun p => (p.1 - x_mean points) * (p.2 - y_mean points))
          = points.map (fun _ => (0 : ℚ)) := by
        refine List.map_congr_left ?_
        intro q hq
        rw [h q hq, y_mean_const hne h]
        ring
      rw [hmap, sum_map_const]
      ring
    unfold slope
    rcases eq_or_ne ((points.map (fun p => (p.1 - x_mean points) ^ 2)).sum) 0 with hd | hd
    · simp [hd]
    · simp [hd, hnum]

theorem raw_pred_const_y {points : List (ℚ × ℚ)} {g : ℚ} (hne : points ≠ [])
    (h : ∀ p ∈ points, p.2 = g) : raw_pred points = g := by
  unfold raw_pred intercept
  rw [slope_of_const_y h, y_mean_const hne h]
  ring

theorem raw_pred_singleton (p : ℚ × ℚ) : raw_pred [p] = p.2 := by
  refine raw_pred_const_y (by simp) ?_
  intro q hq
  rw [List.mem_singleton.mp hq]

/-! ### Claim theorems -/

/-- Claim C7: for an empty history, `predict` returns with prediction absent and
baseline average absent (and `linear_regression_predict` returns `None`),
without failing. -/
theorem predict_empty_history :
    linear_regression_predict [] = none ∧
    predict [] = ⟨none, none, "No grades available."⟩ :=
  ⟨rfl, rfl⟩

/-- Claim C2: for the three-point history `[(0,6),(1,7),(2,8)]`, the fitted
line has slope 1 and intercept 6, the average gap is 1 so `next_x = 3`, the
raw prediction is 9 and the returned prediction is `9.0`; the baseline average
over those grades is `7.0`. -/
theorem example_history_prediction :
    slope [((0 : ℚ), (6 : ℚ)), (1, 7), (2, 8)] = 1 ∧
    intercept [((0 : ℚ), (6 : ℚ)), (1, 7), (2, 8)] = 6 ∧
    average_gap [(0 : ℚ), 1, 2] = 1 ∧
    next_x [((0 : ℚ), (6 : ℚ)), (1, 7), (2, 8)] = 3 ∧
    raw_pred [((0 : ℚ), (6 : ℚ)), (1, 7), (2, 8)] = 9 ∧
    linear_regression_predict [((0 : ℚ), (6 : ℚ)), (1, 7), (2, 8)] = some 9 ∧
    (predict [⟨"a", some 6, some 0⟩, ⟨"b", some 7, some 1⟩, ⟨"c", some 8, some 2⟩]).prediction
      = some 9 ∧
    (predict [⟨"a", some 6, some 0⟩, ⟨"b", some 7, some 1⟩, ⟨"c", some 8, some 2⟩]).baseline_avg
      = some 7 := by
  norm_num [slope, x_mean, y_mean, intercept, average_gap, deltas, next_x, raw_pred,
    linear_regression_predict, clip, round2, roundHalfEven, MIN_GRADE, MAX_GRADE,
    predict, prepare_points_from_subjects, preparePointsAux, gradesOf,
    min_def, max_def]

/-- Claim C1: for every non-empty history of observations (grades within
`[MIN_GRADE, MAX_GRADE]`), the prediction returned by
`linear_regression_predict` lies within `[MIN_GRADE, MAX_GRADE]`; and whenever
the raw (unclipped) least-squares extrapolation exceeds `MAX_GRADE`, the
returned prediction equals `MAX_GRADE` exactly. -/
theorem prediction_always_clipped (points : List (ℚ × ℚ))
    (hne : points ≠ [])
    (hg : ∀ p ∈ points, MIN_GRADE ≤ p.2 ∧ p.2 ≤ MAX_GRADE) :
    (∃ q, linear_regression_predict points = some q ∧ MIN_GRADE ≤ q ∧ q ≤ MAX_GRADE) ∧
    (MAX_GRADE < raw_pred points → linear_regression_predict points = some MAX_GRADE) := by
  rcases points with _ | ⟨p, rest⟩
  · exact absurd rfl hne
  rcases rest with _ | ⟨p', rest'⟩
  · constructor
    · exact ⟨p.2, rfl, (hg p (by simp)).1, (hg p (by simp)).2⟩
    · intro hraw
      rw [raw_pred_singleton] at hraw
      exact absurd hraw (not_lt.mpr (hg p (by simp)).2)
  · constructor
    · exact ⟨round2 (clip (raw_pred (p :: p' :: rest'))), rfl,
        (round2_clip_bounds _).1, (round2_clip_bounds _).2⟩
    · intro hraw
      show some (round2 (clip (raw_pred (p :: p' :: rest')))) = some MAX_GRADE
      rw [clip_of_gt_max hraw, round2_ten]

/-- Witness for C1: the steeply rising history `[(0,6),(1,8),(2,10)]` has raw
prediction 12 and returns exactly `MAX_GRADE`. -/
theorem prediction_always_clipped_witness :
    linear_regression_predict [((0 : ℚ), (6 : ℚ)), (1, 8), (2, 10)] = some MAX_GRADE := by
  refine (prediction_always_clipped _ (by simp) ?_).2 ?_
  · intro p hp
    fin_cases hp <;> norm_num [MIN_GRADE, MAX_GRADE]
  · norm_num [raw_pred, slope, x_mean, y_mean, intercept, next_x, average_gap, deltas,
      MAX_GRADE]

/-- Claim C4: `linear_regression_predict` is total — it returns `None` exactly
on the empty list and a value on every other input — and when all x-values are
equal the zero least-squares denominator is guarded and the slope is 0. -/
theorem lrp_total (points : List (ℚ × ℚ)) :
    (linear_regression_predict points = none ↔ points = []) ∧
    ∀ c : ℚ, (∀ p ∈ points, p.1 = c) → slope points = 0 := by
  constructor
  · constructor
    · intro h
      rcases points with _ | ⟨p, rest⟩
      · rfl
      · rcases rest with _ | ⟨p', rest'⟩ <;> simp [linear_regression_predict] at h
    · rintro rfl
      rfl
  · intro c hc
    exact slope_of_const_x hc

/-- Witness for C4: the empty history maps to `None`, and a history whose two
x-values are both 5 gets slope 0. -/
theorem lrp_total_witness :
    linear_regression_predict ([] : List (ℚ × ℚ)) = none ∧
    slope [((5 : ℚ), (7 : ℚ)), (5, 9)] = 0 :=
  ⟨(lrp_total []).1.mpr rfl,
    (lrp_total [((5 : ℚ), (7 : ℚ)), (5, 9)]).2 5 (by intro p hp; fin_cases hp <;> rfl)⟩

/-- Claim C5: for every history of at least two observations whose grades all
equal some `g` within `[MIN_GRADE, MAX_GRADE]`, the fitted slope is 0 and the
returned prediction is `g` up to rounding to 2 decimals, regardless of the
x-values. -/
theorem constant_grades_prediction (points : List (ℚ × ℚ)) (g : ℚ)
    (hlen : 2 ≤ points.length)
    (hg : ∀ p ∈ points, p.2 = g)
    (hmin : MIN_GRADE ≤ g) (hmax : g ≤ MAX_GRADE) :
    slope points = 0 ∧ linear_regression_predict points = some (round2 g) := by
  constructor
  · exact slope_of_const_y hg
  · rcases points with _ | ⟨p, rest⟩
    · simp at hlen
    rcases rest with _ | ⟨p', rest'⟩
    · simp at hlen
    · have hraw : raw_pred (p :: p' :: rest') = g := raw_pred_const_y (by simp) hg
      have hclip : clip g = g := by
        unfold clip
        rw [min_eq_right hmax, max_eq_right hmin]
      show some (round2 (clip (raw_pred (p :: p' :: rest')))) = some (round2 g)
      rw [hraw, hclip]

/-- Witness for C5: the constant history `[(0,7),(1,7)]` has slope 0 and
prediction `round2 7 = 7`. -/
theorem constant_grades_prediction_witness :
    slope [((0 : ℚ), (7 : ℚ)), (1, 7)] = 0 ∧
    linear_regression_predict [((0 : ℚ), (7 : ℚ)), (1, 7)] = some (round2 7) :=
  constant_grades_prediction _ 7 (by simp) (by intro p hp; fin_cases hp <;> rfl)
    (by norm_num [MIN_GRADE]) (by norm_num [MAX_GRADE])

/-- Claim C6 (amended): for a history of exactly one observation with grade
`g`, `predict` returns prediction `g` exactly (no rounding or clipping), and
baseline average `g` rounded to 2 decimals — equal to `g` whenever `g` has at
most two decimal places. -/
theorem predict_single_observation (name : String) (d : Option ℚ) (g : ℚ) :
    predict [⟨name, some g, d⟩] =
      ⟨some g, some (round2 g), "Prediction based on linear trend of historical grades."⟩ := by
  cases d <;>
    simp [predict, prepare_points_from_subjects, preparePointsAux, gradesOf,
      linear_regression_predict]

/-- Counterexample to C6 as stated: for the single grade `7.333`, the returned
prediction equals the grade exactly but the baseline average does not — it is
rounded to `7.33`. -/
theorem predict_single_observation_rounds_baseline :
    (predict [⟨"s", some (7333/1000), some 0⟩]).prediction = some ((7333 : ℚ)/1000) ∧
    (predict [⟨"s", some (7333/1000), some 0⟩]).baseline_avg ≠ some ((7333 : ℚ)/1000) := by
  norm_num [predict, prepare_points_from_subjects, preparePointsAux, gradesOf,
    linear_regression_predict, round2, roundHalfEven]

/-- Claim C3: for every target average and non-empty grade list, with
`required = target * (count+1) - sum(grades)`: if `required > MAX_GRADE` the
result is absent, if `required < MIN_GRADE` the result is `MIN_GRADE`, and
otherwise it is `required` rounded to 2 decimals; for an empty grade list the
result is the target itself.  In particular `[10,10]` at target 8 yields the
floor `MIN_GRADE` and `[6,6]` at target 8 is unattainable. -/
theorem required_grade_characterization (target : ℚ) (grades : List ℚ) :
    required_grade target [] = some target ∧
    (grades ≠ [] →
      (MAX_GRADE < target * (grades.length + 1) - grades.sum →
        required_grade target grades = none) ∧
      (target * (grades.length + 1) - grades.sum < MIN_GRADE →
        required_grade target grades = some MIN_GRADE) ∧
      (MIN_GRADE ≤ target * (grades.length + 1) - grades.sum →
        target * (grades.length + 1) - grades.sum ≤ MAX_GRADE →
        required_grade target grades
          = some (round2 (target * (grades.length + 1) - grades.sum)))) ∧
    required_grade TARGET_AVG [10, 10] = some MIN_GRADE ∧
    required_grade TARGET_AVG [6, 6] = none := by
  refine ⟨rfl, ?_, ?_, ?_⟩
  · intro hne
    have hF : grades.isEmpty = false := by
      simpa [List.isEmpty_iff] using hne
    refine ⟨?_, ?_, ?_⟩
    · intro h
      simp [required_grade, hF, h]
    · intro h
      have h' : ¬ MAX_GRADE < target * (grades.length + 1) - grades.sum := by
        norm_num [MIN_GRADE, MAX_GRADE] at h ⊢
        linarith
      simp [required_grade, hF, h, h']
    · intro h1 h2
      simp [required_grade, hF, not_lt.mpr h2, not_lt.mpr h1]
  · norm_num [required_grade, TARGET_AVG, MIN_GRADE, MAX_GRADE]
  · norm_num [required_grade, TARGET_AVG, MIN_GRADE, MAX_GRADE]

/-- Witness for C3: with grades `[9]` and target 8, `required = 8*2-9 = 7`
lies within bounds, so the result is `round2 7`. -/
theorem required_grade_characterization_witness :
    required_grade 8 [9] = some (round2 7) := by
  have h := ((required_grade_characterization 8 [9]).2.1 (by simp)).2.2
    (by norm_num [MIN_GRADE]) (by norm_num [MAX_GRADE])
  norm_num at h
  exact h

theorem preparePointsAux_map_fst_of_timestamps (idx : ℕ) (subjects : List Subject)
    (h : ∀ s ∈ subjects, s.date_added.isSome = true) :
    subjects.map Subject.date_added = ((preparePointsAux idx subjects).map Prod.fst).map some := by
  induction subjects generalizing idx with
  | nil => simp [preparePointsAux]
  | cons s rest ih =>
    have hs := h s (by simp)
    rcases hos : s.date_added with _ | t
    · rw [hos] at hs
      simp at hs
    · simp only [preparePointsAux, hos, List.map_cons]
      exact congrArg (List.cons (some t)) (ih (idx + 1) (fun s' hs' => h s' (by simp [hs'])))

theorem preparePointsAux_map_fst_of_no_timestamps (idx : ℕ) (subjects : List Subject)
    (h : ∀ s ∈ subjects, s.date_added = none) :
    (preparePointsAux idx subjects).map Prod.fst
      = (List.range subjects.length).map (fun i => ((idx + i : ℕ) : ℚ)) := by
  induction subjects generalizing idx with
  | nil => simp [preparePointsAux]
  | cons s rest ih =>
    have hs := h s (by simp)
    simp only [preparePointsAux, hs, List.map_cons, List.length_cons,
      List.range_succ_eq_map, List.map_map]
    rw [ih (idx + 1) (fun s' hs' => h s' (by simp [hs']))]
    congr 1
    refine List.map_congr_left ?_
    intro i _
    simp only [Function.comp_apply]
    push_cast
    ring

/-- Claim C8 (amended): each observation's x-value is its subject's numeric
timestamp when one is present and its ordinal index otherwise, so the x-values
come from a single source whenever timestamp presence is homogeneous: all
timestamps when every subject has one, all ordinal indices when none does.
Heterogeneous presence mixes the two sources within one history. -/
theorem x_source_homogeneous (subjects : List Subject) :
    ((∀ s ∈ subjects, s.date_added.isSome = true) → allTimestampX subjects) ∧
    ((∀ s ∈ subjects, s.date_added = none) → allIndexX subjects) := by
  constructor
  · intro h
    unfold allTimestampX xValues prepare_points_from_subjects
    exact preparePointsAux_map_fst_of_timestamps 0 subjects h
  · intro h
    unfold allIndexX xValues prepare_points_from_subjects
    rw [preparePointsAux_map_fst_of_no_timestamps 0 subjects h]
    refine List.map_congr_left ?_
    intro i _
    norm_num

/-- Counterexample to C8 as stated: a two-subject history whose first subject
carries timestamp 100 and whose second has no timestamp feeds the regression
the x-values `[100, 1]` — the first a timestamp, the second an ordinal index —
so the x-values are drawn neither all from timestamps nor all from indices. -/
theorem x_sources_mixed :
    xValues [⟨"a", some 7, some 100⟩, ⟨"b", some 8, none⟩] = [100, 1] ∧
    ¬ (allTimestampX [⟨"a", some 7, some 100⟩, ⟨"b", some 8, none⟩] ∨
        allIndexX [⟨"a", some 7, some 100⟩, ⟨"b", some 8, none⟩]) := by
  constructor
  · norm_num [xValues, prepare_points_from_subjects, preparePointsAux]
  · rintro (h | h)
    · norm_num [allTimestampX, xValues, prepare_points_from_subjects, preparePointsAux] at h
      exact Option.noConfusion h
    · norm_num [allIndexX, xValues, prepare_points_from_subjects, preparePointsAux,
        List.range_succ] at h

/-- Witness for C8 (amended): a history whose subjects all carry timestamps
uses exactly those timestamps, and one with no timestamps uses the ordinal
indices. -/
theorem x_source_homogeneous_witness :
    allTimestampX [⟨"a", some 7, some 3⟩, ⟨"b", some 8, some 5⟩] ∧
    allIndexX [⟨"c", some 9, none⟩, ⟨"d", some 6, none⟩] :=
  ⟨(x_source_homogeneous _).1 (by intro s hs; fin_cases hs <;> rfl),
    (x_source_homogeneous _).2 (by intro s hs; fin_cases hs <;> rfl)⟩

/-- Claim C9 (code bug): the form grade "nan" converts with `float` to the
float `nan` without raising, and both range comparisons `nan < MIN_GRADE` and
`nan > MAX_GRADE` are `False` in Python, so whenever the submitted subject
name is non-blank both write handlers store a document whose grade is `nan` —
which is no numeric grade within `[MIN_GRADE, MAX_GRADE]` — instead of
rejecting the submission with status 400; a numeric out-of-range grade is
still rejected, so the slip is specific to `nan`. -/
theorem nan_grade_bypasses_validation (name : String) (now : ℚ) (old : SubjectDoc) :
    (name.trim ≠ "" →
      student_page_post name (some PyFloat.nan) now
        = .written { subject := name.trim, grade := PyFloat.nan, date_added := some now } ∧
      edit_subject old name (some PyFloat.nan)
        = .written { old with subject := name.trim, grade := PyFloat.nan }) ∧
    (∀ g : ℚ, PyFloat.nan ≠ PyFloat.num g) ∧
    (∀ g : ℚ, MAX_GRADE < g →
      student_page_post name (some (PyFloat.num g)) now
        = .badRequest 400 "Error: Grade must be 6-10" ∧
      edit_subject old name (some (PyFloat.num g))
        = .badRequest 400 "Error: Grade must be 6-10") := by
  refine ⟨?_, fun g => by simp, ?_⟩
  · intro hname
    constructor
    · unfold student_page_post
      dsimp only
      rw [if_neg (by simp [hname, PyFloat.lt])]
    · unfold edit_subject
      dsimp only
      rw [if_neg (by simp [hname, PyFloat.lt])]
  · intro g hg
    have hlt : PyFloat.lt (.num MAX_GRADE) (.num g) = true := by
      simp [PyFloat.lt, hg]
    constructor
    · unfold student_page_post
      dsimp only
      rw [if_pos (by tauto)]
    · unfold edit_subject
      dsimp only
      rw [if_pos (by tauto)]

/-- Witness for C9's theorem: the concrete numeric grade 20 is rejected with
status 400 by both handlers. -/
theorem nan_grade_bypasses_validation_witness :
    student_page_post "Math" (some (PyFloat.num 20)) 0
      = .badRequest 400 "Error: Grade must be 6-10" ∧
    edit_subject { subject := "Old", grade := PyFloat.num 7, date_added := none }
        "Math" (some (PyFloat.num 20))
      = .badRequest 400 "Error: Grade must be 6-10" :=
  (nan_grade_bypasses_validation "Math" 0
    { subject := "Old", grade := PyFloat.num 7, date_added := none }).2.2 20
    (by norm_num [MAX_GRADE])

theorem preparePointsAux_map_snd (idx : ℕ) (l : List Subject) :
    (preparePointsAux idx l).map Prod.snd = gradesOf l := by
  induction l generalizing idx with
  | nil => simp [preparePointsAux, gradesOf]
  | cons s rest ih => simp [preparePointsAux, gradesOf, ih (idx + 1)]

/-- Claim C10: a subject record with no grade field contributes grade `0.0`
both to the regression points and to the baseline-average grade list (the code
defaults the missing field to 0, below `MIN_GRADE`), and appending such a
record to a non-empty history of in-range grades strictly lowers the
(pre-rounding) baseline average. -/
theorem missing_grade_defaults_to_zero (subjects : List Subject) (name : String)
    (d : Option ℚ)
    (hne : subjects ≠ [])
    (hg : ∀ s ∈ subjects, ∃ g, s.grade = some g ∧ MIN_GRADE ≤ g) :
    (prepare_points_from_subjects (subjects ++ [⟨name, none, d⟩])).map Prod.snd
        = gradesOf subjects ++ [0] ∧
    gradesOf (subjects ++ [⟨name, none, d⟩]) = gradesOf subjects ++ [0] ∧
    (gradesOf (subjects ++ [⟨name, none, d⟩])).sum
        / (gradesOf (subjects ++ [⟨name, none, d⟩])).length
      < (gradesOf subjects).sum / (gradesOf subjects).length := by
  have happ : gradesOf (subjects ++ [⟨name, none, d⟩]) = gradesOf subjects ++ [0] := by
    simp [gradesOf]
  refine ⟨?_, happ, ?_⟩
  · rw [prepare_points_from_subjects, preparePointsAux_map_snd, happ]
  · have hGne : gradesOf subjects ≠ [] := by
      simpa [gradesOf, List.map_eq_nil_iff] using hne
    have hall : ∀ y ∈ gradesOf subjects, 0 < y := by
      intro y hy
      obtain ⟨t, ht, rfl⟩ := List.mem_map.mp hy
      obtain ⟨g, hgs, hge⟩ := hg t ht
      rw [hgs]
      simp only [Option.getD_some]
      have : (0 : ℚ) < MIN_GRADE := by norm_num [MIN_GRADE]
      linarith
    have hsum_pos : 0 < (gradesOf subjects).sum := List.sum_pos _ hall hGne
    have hlen_pos : 0 < ((gradesOf subjects).length : ℚ) := by
      exact_mod_cast List.length_pos.mpr hGne
    rw [happ]
    simp only [List.sum_append, List.length_append, List.sum_cons, List.sum_nil,
      List.length_cons, List.length_nil, add_zero]
    push_cast
    exact div_lt_div_of_pos_left hsum_pos hlen_pos (by linarith)

/-- Witness for C10: appending a grade-less record to the single-grade history
`[8]` lowers the baseline average. -/
theorem missing_grade_defaults_to_zero_witness :
    (gradesOf ([⟨"a", some 8, none⟩] ++ [⟨"b", none, none⟩])).sum
        / (gradesOf ([⟨"a", some 8, none⟩] ++ [⟨"b", none, none⟩])).length
      < (gradesOf [⟨"a", some 8, none⟩]).sum / (gradesOf [⟨"a", some 8, none⟩]).length :=
  (missing_grade_defaults_to_zero [⟨"a", some 8, none⟩] "b" none (by simp)
    (by intro t ht; fin_cases ht; exact ⟨8, rfl, by norm_num [MIN_GRADE]⟩)).2.2

end GradeApp
